import Mathlib

/-!
Verification of the livekit-voice-ai repository: shallow Lean embeddings of
the RUBE MCP proxy server (`rube_proxy_server.py`), the environment
synchronisation script (`sync_env.py`), the proxy-side HTTP client
(`agent-starter-python/src/proxy_rube_integration.py`) and the demo script
(`demo_voice_automation.py`), together with theorems settling the frozen
claims about them.

Python strings are modelled as Lean `String`s (lists of characters),
Python dicts with string keys as association lists or typed structures,
HTTP traffic as explicit parameters holding the status and parsed body the
code under verification would observe, and exceptions as explicit sum
types.  FastAPI returning a dict from a handler produces an HTTP 200
response with that dict as JSON body; `raise HTTPException(status_code,
detail)` produces a response with that status and detail.
-/

namespace LivekitVoiceAi

/-! ## Python string primitives used by the sources -/

/-- Python `s.lower()`.  The keyword matching in the proxy only involves
ASCII characters, where `Char.toLower` agrees with Python. -/
def pyLower (s : String) : String := ⟨s.data.map Char.toLower⟩

/-- Python `needle in hay` on strings: `needle` occurs contiguously in
`hay`, i.e. its character list is an infix of the character list of `hay`. -/
def pyIn (needle hay : String) : Bool := decide (needle.data <:+: hay.data)

/-- Python `s.startswith(pre)`. -/
def pyStartsWith (s pre : String) : Bool := pre.data.isPrefixOf s.data

/-! ## Proxy server: `rube_proxy_server.py`

Each POST handler tries the real MCP function first; the call raises
`NameError` when the MCP binding is absent (the simulated-fallback branch),
may raise some other exception, or returns a result.  `McpOutcome` records
which of the three happened; the MCP result type is a parameter `α` since
the proxy only forwards it. -/

inductive McpOutcome (α : Type) where
  | ok (result : α)
  | nameError
  | exn (msg : String)

/-- A JSON response body produced by a proxy handler: a normal body
`{"success": ..., "data": ...}` where the data is either the forwarded MCP
result (`Sum.inl`) or the handler's simulated fallback record (`Sum.inr`),
or an error body `{"detail": ...}` coming from `HTTPException`. -/
inductive JsonBody (α β : Type) where
  | payload (success : Bool) (data : α ⊕ β)
  | errorDetail (detail : String)

/-- An HTTP response as the proxy's framework emits it. -/
structure HttpResponse (α β : Type) where
  status : Nat
  body : JsonBody α β

/-- Fallback tool synthesis of `search_tools` (lines 55-74): keyword
matching on the lowercased `use_case`, with a hardcoded default when no
keyword matches. -/
def fallbackSearchTools (use_case : String) : List String :=
  let u := pyLower use_case
  let tools : List String :=
    (if pyIn "email" u then ["GMAIL_SEND_EMAIL", "OUTLOOK_SEND_EMAIL", "GMAIL_FETCH_EMAILS"] else []) ++
    (if pyIn "slack" u || pyIn "message" u then ["SLACK_SEND_MESSAGE", "SLACK_LIST_CHANNELS"] else []) ++
    (if pyIn "document" u || pyIn "doc" u then ["GOOGLE_DOCS_CREATE", "GOOGLE_DOCS_EDIT"] else []) ++
    (if pyIn "calendar" u || pyIn "meeting" u then ["GOOGLE_CALENDAR_CREATE_EVENT", "OUTLOOK_CALENDAR_CREATE_EVENT"] else []) ++
    (if pyIn "social" u || pyIn "linkedin" u || pyIn "twitter" u then ["LINKEDIN_POST", "TWITTER_POST"] else [])
  if tools.isEmpty then ["GMAIL_SEND_EMAIL", "SLACK_SEND_MESSAGE", "GOOGLE_DOCS_CREATE"] else tools

/-- The simulated `/search-tools` response data (lines 76-81).  Python's
`hash(use_case)` is salted and implementation defined, so it enters the
model as the parameter `pyHash`. -/
structure SearchFallbackData where
  tools : List String
  session_id : String
  reasoning : String
  note : String

/-- Handler of POST `/search-tools` (lines 35-88). -/
def search_tools (outcome : McpOutcome α) (use_case : String) (pyHash : Nat) :
    HttpResponse α SearchFallbackData :=
  match outcome with
  | .ok result => ⟨200, .payload true (.inl result)⟩
  | .nameError =>
      ⟨200, .payload true (.inr
        { tools := fallbackSearchTools use_case
          session_id := "session-" ++ toString (pyHash % 10000)
          reasoning := "Found " ++ toString (fallbackSearchTools use_case).length
            ++ " tools for: " ++ pyLower use_case
          note := "Simulated response - real MCP integration would provide actual tool discovery" })⟩
  | .exn msg => ⟨500, .errorDetail msg⟩

/-- One element of the `tools` list of an `/execute-workflow` request: the
fallback only reads `tool.get("tool_slug", "unknown")`, so only that key is
modelled. -/
structure ToolCall where
  tool_slug : Option String

/-- One entry of the simulated `results` list (lines 124-129). -/
structure ExecToolResult where
  tool : String
  status : String
  message : String
  note : String

/-- The simulated `/execute-workflow` response data (lines 132-138). -/
structure ExecFallbackData where
  success : Bool
  results : List ExecToolResult
  session_id : String
  message : String
  note : String

/-- The per-tool simulated results of the fallback loop (lines 122-130). -/
def fallbackExecResults (tools : List ToolCall) : List ExecToolResult :=
  tools.map (fun tool =>
    let tool_slug := tool.tool_slug.getD "unknown"
    { tool := tool_slug
      status := "simulated"
      message := "Simulated execution of " ++ tool_slug
      note := "This would perform real actions with proper MCP integration" })

/-- Handler of POST `/execute-workflow` (lines 90-145); `session_id` is the
request's `session_id` field with default `""`. -/
def execute_workflow (outcome : McpOutcome α) (tools : List ToolCall) (session_id : String) :
    HttpResponse α ExecFallbackData :=
  match outcome with
  | .ok result => ⟨200, .payload true (.inl result)⟩
  | .nameError =>
      ⟨200, .payload true (.inr
        { success := true
          results := fallbackExecResults tools
          session_id := session_id
          message := "Simulated execution of " ++ toString tools.length ++ " tools"
          note := "Real MCP integration would perform actual app automation" })⟩
  | .exn msg => ⟨500, .errorDetail msg⟩

/-- The simulated `/manage-connections` response data (lines 168-174). -/
structure ConnFallbackData where
  success : Bool
  message : String
  toolkits : List String
  status : String
  note : String

/-- Handler of POST `/manage-connections` (lines 147-181). -/
def manage_connections (outcome : McpOutcome α) (toolkits : List String) :
    HttpResponse α ConnFallbackData :=
  match outcome with
  | .ok result => ⟨200, .payload true (.inl result)⟩
  | .nameError =>
      ⟨200, .payload true (.inr
        { success := true
          message := "Connection management initiated for: " ++ String.intercalate ", " toolkits
          toolkits := toolkits
          status := "ready_for_auth"
          note := "Simulated response - real MCP integration would handle OAuth flows" })⟩
  | .exn msg => ⟨500, .errorDetail msg⟩

/-- The simulated plan of `/create-plan` (lines 211-222). -/
structure PlanRecord where
  use_case : String
  difficulty : String
  steps : List String
  estimated_time : String
  tools_needed : List String

/-- The simulated `/create-plan` response data (lines 209-225). -/
structure PlanFallbackData where
  success : Bool
  plan : PlanRecord
  session_id : String
  note : String

/-- Handler of POST `/create-plan` (lines 183-232); `use_case`, `difficulty`
and `session_id` are the request fields with their `.get` defaults applied. -/
def create_plan (outcome : McpOutcome α) (use_case difficulty session_id : String) :
    HttpResponse α PlanFallbackData :=
  match outcome with
  | .ok result => ⟨200, .payload true (.inl result)⟩
  | .nameError =>
      ⟨200, .payload true (.inr
        { success := true
          plan :=
            { use_case := use_case
              difficulty := difficulty
              steps :=
                ["1. Identify required tools and permissions",
                 "2. Authenticate with necessary apps",
                 "3. Execute workflow steps in sequence",
                 "4. Verify results and handle errors"]
              estimated_time := "2-5 minutes"
              tools_needed := ["GMAIL_SEND_EMAIL", "SLACK_SEND_MESSAGE"] }
          session_id := session_id
          note := "Simulated response - real MCP integration would provide detailed workflow planning" })⟩
  | .exn msg => ⟨500, .errorDetail msg⟩

/-! ## Proxy server: route table

The decorated routes of the FastAPI app, in source order, and the body
returned by the GET `/health` handler (lines 234-237). -/

inductive HttpMethod where
  | get
  | post
deriving DecidableEq

structure Route where
  method : HttpMethod
  path : String
deriving DecidableEq

/-- The routes registered on `app` in `rube_proxy_server.py`. -/
def appRoutes : List Route :=
  [⟨.get, "/"⟩,
   ⟨.post, "/search-tools"⟩,
   ⟨.post, "/execute-workflow"⟩,
   ⟨.post, "/manage-connections"⟩,
   ⟨.post, "/create-plan"⟩,
   ⟨.get, "/health"⟩]

/-- The dict returned by the `/health` handler, as ordered key-value pairs. -/
def health_check : List (String × String) :=
  [("status", "healthy"), ("message", "RUBE MCP Proxy is running")]

/-! ## Environment synchronisation: `sync_env.py`

File contents are Lean `String`s; the character-level helpers below embed
the Python string operations `strip`, `splitlines` and `'\n'.join` used by
`load_env_file` and `save_env_file`. -/

/-- Python `str.isspace` on a single character: the characters `str.strip()`
removes — the ASCII whitespace and separator controls (tab through carriage
return, `\x1c`-`\x1f`), space, NEL (`\x85`), and the Unicode space
separators NBSP, Ogham space mark, the en-quad..hair-space range
U+2000-U+200A, the line and paragraph separators U+2028/U+2029, narrow
NBSP, medium mathematical space and ideographic space. -/
def pyIsSpace (c : Char) : Bool :=
  c == ' ' || c == '\t' || c == '\n' || c == '\r' ||
  c == '\u000B' || c == '\u000C' ||
  c == '\u001C' || c == '\u001D' || c == '\u001E' || c == '\u001F' ||
  c == '\u0085' || c == '\u00A0' || c == '\u1680' ||
  (0x2000 ≤ c.toNat && c.toNat ≤ 0x200A) ||
  c == '\u2028' || c == '\u2029' || c == '\u202F' || c == '\u205F' || c == '\u3000'

/-- The line boundaries of Python `str.splitlines()`: `\n`, `\r` (with
`\r\n` counted as one boundary), `\x0b`, `\x0c`, `\x1c`-`\x1e`, `\x85`,
U+2028 and U+2029. -/
def pyLineBoundary (c : Char) : Bool :=
  c == '\n' || c == '\r' ||
  c == '\u000B' || c == '\u000C' ||
  c == '\u001C' || c == '\u001D' || c == '\u001E' ||
  c == '\u0085' || c == '\u2028' || c == '\u2029'

/-- Python `line.strip()`: drop leading and trailing whitespace, with
`pyIsSpace` the whitespace test `str.strip` uses. -/
def pyStrip (l : List Char) : List Char :=
  ((l.dropWhile pyIsSpace).reverse.dropWhile pyIsSpace).reverse

/-- Python `text.splitlines()`: split at every `pyLineBoundary` character,
treating `\r\n` as a single boundary; a terminator ends the current line
and no empty final line is produced for text ending in a terminator. -/
def pySplitlines : List Char → List (List Char)
  | [] => []
  | c :: cs =>
    if pyLineBoundary c then
      [] ::
        (if c = '\r' then
          match cs with
          | d :: cs2 => if d = '\n' then pySplitlines cs2 else pySplitlines (d :: cs2)
          | [] => pySplitlines ([] : List Char)
        else pySplitlines cs)
    else
      match pySplitlines cs with
      | [] => [[c]]
      | l :: ls => (c :: l) :: ls

/-- Python `'\n'.join(...)` at the character-list level. -/
def joinNl : List (List Char) → List Char
  | [] => []
  | [l] => l
  | l :: ls => l ++ '\n' :: joinNl ls

/-- One iteration of the `load_env_file` loop body on an already stripped
line (lines 16-19): skip empty lines, `#` comment lines and lines without
`'='`; otherwise `line.split('=', 1)`. -/
def parseEnvLine (l : List Char) : Option (String × String) :=
  match l with
  | [] => none
  | c :: _ =>
    if c = '#' then none
    else if l.any (fun d => d == '=') then
      some (⟨l.takeWhile (fun d => d != '=')⟩, ⟨(l.dropWhile (fun d => d != '=')).tail⟩)
    else none

/-- Python dict assignment `env_vars[key] = value`: overwrite the value in
place when the key is present, append otherwise. -/
def dinsert (env : List (String × String)) (k v : String) : List (String × String) :=
  if env.any (fun p => p.1 == k) then
    env.map (fun p => if p.1 == k then (k, v) else p)
  else env ++ [(k, v)]

/-- `load_env_file` (lines 11-20) applied to the text of an existing file. -/
def load_env_file (content : String) : List (String × String) :=
  (pySplitlines content.data).foldl
    (fun env line =>
      match parseEnvLine (pyStrip line) with
      | some (k, v) => dinsert env k v
      | none => env) []

/-- The text `save_env_file` writes when no template is given (line 27):
`'\n'.join(f"{key}={value}" ...)` over the dict items in order. -/
def save_env_content (env : List (String × String)) : String :=
  ⟨joinNl (env.map (fun p => p.1.data ++ '=' :: p.2.data))⟩

/-- `required_vars` of `sync_env.main` (line 52). -/
def required_vars : List String := ["LIVEKIT_URL", "LIVEKIT_API_KEY", "LIVEKIT_API_SECRET"]

/-- Python `var not in agent_vars or agent_vars[var].startswith('your_')`
(line 53). -/
def missingOrPlaceholder (env : List (String × String)) (v : String) : Bool :=
  match List.lookup v env with
  | none => true
  | some x => pyStartsWith x "your_"

/-- `missing_vars` of `sync_env.main` (line 53). -/
def missing_vars (env : List (String × String)) : List String :=
  required_vars.filter (fun v => missingOrPlaceholder env v)

/-- The frontend `.env.local` text: the template of lines 63-71 with the
three values substituted, i.e. `frontend_template.format(**frontend_vars)`
unfolded (the template text is fixed, so `str.format` is plain splicing). -/
def frontendContent (url key secret : String) : String :=
  "# LiveKit Configuration\n" ++
  "# These values are synced from the agent configuration\n" ++
  "LIVEKIT_API_KEY=" ++ key ++ "\n" ++
  "LIVEKIT_API_SECRET=" ++ secret ++ "\n" ++
  "LIVEKIT_URL=" ++ url ++ "\n" ++
  "\n" ++
  "# Internal environment variables (leave as is)\n" ++
  "NEXT_PUBLIC_APP_CONFIG_ENDPOINT=\n" ++
  "SANDBOX_ID="

/-- Outcome of `sync_env.main`: `sys.exit(1)` before any write, or the
frontend `.env.local` written with the given text. -/
inductive SyncResult where
  | exit1
  | wrote (content : String)
deriving DecidableEq

/-- `sync_env.main` (lines 31-93) as a function of the agent `.env.local`:
`none` when that file does not exist, `some text` of its content otherwise. -/
def syncMain (agentFile : Option String) : SyncResult :=
  match agentFile with
  | none => .exit1
  | some text =>
    let agent_vars := load_env_file text
    if missing_vars agent_vars ≠ [] then .exit1
    else
      .wrote (frontendContent
        ((List.lookup "LIVEKIT_URL" agent_vars).getD "")
        ((List.lookup "LIVEKIT_API_KEY" agent_vars).getD "")
        ((List.lookup "LIVEKIT_API_SECRET" agent_vars).getD ""))

/-! ## Proxy client: `agent-starter-python/src/proxy_rube_integration.py`

Each method performs at most one HTTP interaction; the interaction the
environment would answer is passed in as a `Transport` value: a response
with its status and parsed body, or a raised exception with its string.
The `Nat` in each method's result counts the HTTP requests the method
issued. -/

/-- State of a `ProxyRubeMCPClient`. -/
structure ProxyClient where
  proxy_url : String
  api_key : Option String
  initialized : Bool

/-- `ProxyRubeMCPClient.__init__` (lines 21-24): `api_key` is
`os.getenv("RUBE_API_KEY")` and `initialized` starts `False`. -/
def ProxyClient.new (proxy_url : String) (api_key : Option String) : ProxyClient :=
  { proxy_url := proxy_url, api_key := api_key, initialized := false }

/-- What a single HTTP interaction does from the caller's point of view. -/
inductive Transport (β : Type) where
  | response (status : Nat) (body : β)
  | raises (msg : String)
deriving DecidableEq

/-- A client method's returned dict: `result.get("data", {})` of a 200
response (the `data` field when present), or `{"success": False, "error":
...}`. -/
inductive ClientResult (δ : Type) where
  | payload (data : Option δ)
  | failure (error : String)
deriving DecidableEq

/-- `ProxyRubeMCPClient.search_tools` (lines 47-73). -/
def ProxyClient.search_tools (c : ProxyClient) (t : Transport (Option δ)) :
    ProxyClient × Nat × ClientResult δ :=
  if !c.initialized then (c, 0, .failure "Proxy client not initialized")
  else
    match t with
    | .response s b => if s = 200 then (c, 1, .payload b) else (c, 1, .failure ("HTTP " ++ toString s))
    | .raises msg => (c, 1, .failure msg)

/-- `ProxyRubeMCPClient.execute_workflow` (lines 75-110). -/
def ProxyClient.execute_workflow (c : ProxyClient) (t : Transport (Option δ)) :
    ProxyClient × Nat × ClientResult δ :=
  if !c.initialized then (c, 0, .failure "Proxy client not initialized")
  else
    match t with
    | .response s b => if s = 200 then (c, 1, .payload b) else (c, 1, .failure ("HTTP " ++ toString s))
    | .raises msg => (c, 1, .failure msg)

/-- `ProxyRubeMCPClient.manage_connections` (lines 112-137). -/
def ProxyClient.manage_connections (c : ProxyClient) (t : Transport (Option δ)) :
    ProxyClient × Nat × ClientResult δ :=
  if !c.initialized then (c, 0, .failure "Proxy client not initialized")
  else
    match t with
    | .response s b => if s = 200 then (c, 1, .payload b) else (c, 1, .failure ("HTTP " ++ toString s))
    | .raises msg => (c, 1, .failure msg)

/-- `ProxyRubeMCPClient.create_plan` (lines 139-168). -/
def ProxyClient.create_plan (c : ProxyClient) (t : Transport (Option δ)) :
    ProxyClient × Nat × ClientResult δ :=
  if !c.initialized then (c, 0, .failure "Proxy client not initialized")
  else
    match t with
    | .response s b => if s = 200 then (c, 1, .payload b) else (c, 1, .failure ("HTTP " ++ toString s))
    | .raises msg => (c, 1, .failure msg)

/-- Python truthiness of `self.api_key`: falsy when unset or empty. -/
def pyFalsy (o : Option String) : Bool :=
  match o with
  | none => true
  | some s => s.isEmpty

/-- `ProxyRubeMCPClient.initialize` (lines 26-45): fails without an API
key, otherwise issues GET `/health` and sets `initialized` on a 200. -/
def ProxyClient.initializeConn (c : ProxyClient) (health : Transport Unit) :
    ProxyClient × Bool :=
  if pyFalsy c.api_key then (c, false)
  else
    match health with
    | .response s _ => if s = 200 then ({ c with initialized := true }, true) else (c, false)
    | .raises _ => (c, false)

/-! ## Demo script: `demo_voice_automation.py`

`demo_email_automation` (lines 10-59) is modelled as a function of the two
HTTP responses the proxy would return, yielding either an uncaught
exception (`Except.error`, a Python `KeyError` on a missing JSON key) or
the list of printed lines together with the demo's return value.  A JSON
field that may be absent is an `Option`. -/

/-- The `data` object of the `/search-tools` response as the demo reads it. -/
structure DemoSearchData where
  tools : Option (List String)
  session_id : Option String
deriving DecidableEq

/-- The `data` object of the `/execute-workflow` response as the demo reads
it. -/
structure DemoExecData where
  message : Option String
deriving DecidableEq

/-- An HTTP response as the demo observes it: status and parsed JSON body,
whose `data` key may be absent. -/
structure DemoResp (δ : Type) where
  status : Nat
  data : Option δ
deriving DecidableEq

/-- Python `"-" * 30`. -/
def dash30 : String := ⟨List.replicate 30 '-'⟩

/-- The lines `demo_email_automation` prints before inspecting responses
(lines 12-21). -/
def demoEmailIntroLines : List String :=
  ["📧 DEMO: Email Automation", dash30,
   "👤 User says: 'Send an email to sarah@company.com about tomorrow's meeting'", "",
   "🔍 Agent: Let me search for email tools..."]

/-- `demo_email_automation` (lines 10-59). -/
def demo_email_automation (searchResp : DemoResp DemoSearchData)
    (execResp : DemoResp DemoExecData) : Except String (List String × Bool) :=
  if searchResp.status = 200 then
    match searchResp.data with
    | none => .error "KeyError: 'data'"
    | some d =>
      match d.tools with
      | none => .error "KeyError: 'tools'"
      | some tools =>
        match d.session_id with
        | none => .error "KeyError: 'session_id'"
        | some session_id =>
          let lines1 := demoEmailIntroLines ++
            ["✅ Found " ++ toString tools.length ++ " email tools: " ++
               String.intercalate ", " (tools.take 3),
             "📋 Session: " ++ session_id, "",
             "⚡ Agent: Executing email workflow..."]
          if execResp.status = 200 then
            match execResp.data with
            | none => .error "KeyError: 'data'"
            | some ed =>
              match ed.message with
              | none => .error "KeyError: 'message'"
              | some msg =>
                .ok (lines1 ++
                  ["✅ " ++ msg,
                   "🤖 Agent: 'I've sent the email to Sarah about tomorrow's meeting!'"], true)
          else .ok (lines1 ++ ["❌ Execution failed"], false)
  else .ok (demoEmailIntroLines ++ ["❌ Search failed"], false)

/-- The full output of a successful `demo_email_automation` run, as a
function of what the two response bodies contained. -/
def demoEmailSuccessLines (tools : List String) (session_id msg : String) : List String :=
  demoEmailIntroLines ++
  ["✅ Found " ++ toString tools.length ++ " email tools: " ++
     String.intercalate ", " (tools.take 3),
   "📋 Session: " ++ session_id, "",
   "⚡ Agent: Executing email workflow...",
   "✅ " ++ msg,
   "🤖 Agent: 'I've sent the email to Sarah about tomorrow's meeting!'"]

/-! ## Helper definitions used by the proofs -/

/-- The keyword-branch block of the `search_tools` fallback (lines 58-74)
as a function of the five branch conditions; `fallbackSearchTools` is this
function applied to the five keyword tests on the lowercased use case. -/
def searchCore (b1 b2 b3 b4 b5 : Bool) : List String :=
  let tools : List String :=
    (if b1 then ["GMAIL_SEND_EMAIL", "OUTLOOK_SEND_EMAIL", "GMAIL_FETCH_EMAILS"] else []) ++
    (if b2 then ["SLACK_SEND_MESSAGE", "SLACK_LIST_CHANNELS"] else []) ++
    (if b3 then ["GOOGLE_DOCS_CREATE", "GOOGLE_DOCS_EDIT"] else []) ++
    (if b4 then ["GOOGLE_CALENDAR_CREATE_EVENT", "OUTLOOK_CALENDAR_CREATE_EVENT"] else []) ++
    (if b5 then ["LINKEDIN_POST", "TWITTER_POST"] else [])
  if tools.isEmpty then ["GMAIL_SEND_EMAIL", "SLACK_SEND_MESSAGE", "GOOGLE_DOCS_CREATE"] else tools


/-- Whether the head character (if any) of a character list satisfies a
test; used to state "no leading whitespace" and "does not start with". -/
def headSat (p : Char → Bool) : List Char → Bool
  | [] => true
  | c :: _ => p c

/-- The conditions the amended C5 puts on a key of the environment map:
non-empty, no `'='` and no `str.splitlines` line-boundary character, not
starting with `'#'` and no leading or trailing `str.strip` whitespace. -/
def goodEnvKey (k : String) : Bool :=
  !k.data.isEmpty &&
  k.data.all (fun d => !(d == '=') && !pyLineBoundary d) &&
  headSat (fun c => !(c == '#') && !pyIsSpace c) k.data &&
  headSat (fun c => !pyIsSpace c) k.data.reverse

/-- The conditions the amended C5 puts on a value of the environment map:
no `str.splitlines` line-boundary character and no leading or trailing
`str.strip` whitespace. -/
def goodEnvVal (v : String) : Bool :=
  v.data.all (fun d => !pyLineBoundary d) &&
  headSat (fun c => !pyIsSpace c) v.data &&
  headSat (fun c => !pyIsSpace c) v.data.reverse

/-! ## Theorems

One theorem per frozen claim, with helper lemmas before the claim theorem
that uses them. -/

/-- Exhaustive check of the keyword-branch block over its five boolean
conditions: a keyword group is wholly contained in the result exactly when
its condition held, the default list is returned exactly when no condition
held, and the result is never empty. -/
lemma searchCore_spec : ∀ b1 b2 b3 b4 b5 : Bool,
    (("GMAIL_SEND_EMAIL" ∈ searchCore b1 b2 b3 b4 b5 ∧ "OUTLOOK_SEND_EMAIL" ∈ searchCore b1 b2 b3 b4 b5 ∧
      "GMAIL_FETCH_EMAILS" ∈ searchCore b1 b2 b3 b4 b5) ↔ b1 = true) ∧
    (("SLACK_SEND_MESSAGE" ∈ searchCore b1 b2 b3 b4 b5 ∧ "SLACK_LIST_CHANNELS" ∈ searchCore b1 b2 b3 b4 b5) ↔ b2 = true) ∧
    (("GOOGLE_DOCS_CREATE" ∈ searchCore b1 b2 b3 b4 b5 ∧ "GOOGLE_DOCS_EDIT" ∈ searchCore b1 b2 b3 b4 b5) ↔ b3 = true) ∧
    (("GOOGLE_CALENDAR_CREATE_EVENT" ∈ searchCore b1 b2 b3 b4 b5 ∧ "OUTLOOK_CALENDAR_CREATE_EVENT" ∈ searchCore b1 b2 b3 b4 b5) ↔ b4 = true) ∧
    (("LINKEDIN_POST" ∈ searchCore b1 b2 b3 b4 b5 ∧ "TWITTER_POST" ∈ searchCore b1 b2 b3 b4 b5) ↔ b5 = true) ∧
    ((b1 = false ∧ b2 = false ∧ b3 = false ∧ b4 = false ∧ b5 = false) →
      searchCore b1 b2 b3 b4 b5 = ["GMAIL_SEND_EMAIL", "SLACK_SEND_MESSAGE", "GOOGLE_DOCS_CREATE"]) ∧
    searchCore b1 b2 b3 b4 b5 ≠ [] := by decide

/-- C1: a `/search-tools` request handled by the `NameError` fallback gets
status 200 with `success = True` and a `data.tools` list synthesized by
case-insensitive keyword matching on `use_case`: each keyword group (the
email tools, the Slack tools, the Google-Docs tools, the calendar tools,
the social tools) is included exactly when its keyword occurs in the
lowercased use case, the hardcoded default list is returned exactly when no
keyword occurs, and the list is never empty. -/
theorem search_tools_fallback_keyword_spec (α : Type) (use_case : String) (pyHash : Nat) :
    (search_tools (α := α) .nameError use_case pyHash).status = 200 ∧
    (∃ d : SearchFallbackData,
      (search_tools (α := α) .nameError use_case pyHash).body = .payload true (.inr d) ∧
      d.tools = fallbackSearchTools use_case) ∧
    (("GMAIL_SEND_EMAIL" ∈ fallbackSearchTools use_case ∧ "OUTLOOK_SEND_EMAIL" ∈ fallbackSearchTools use_case ∧
      "GMAIL_FETCH_EMAILS" ∈ fallbackSearchTools use_case) ↔ pyIn "email" (pyLower use_case) = true) ∧
    (("SLACK_SEND_MESSAGE" ∈ fallbackSearchTools use_case ∧ "SLACK_LIST_CHANNELS" ∈ fallbackSearchTools use_case) ↔
      (pyIn "slack" (pyLower use_case) || pyIn "message" (pyLower use_case)) = true) ∧
    (("GOOGLE_DOCS_CREATE" ∈ fallbackSearchTools use_case ∧ "GOOGLE_DOCS_EDIT" ∈ fallbackSearchTools use_case) ↔
      (pyIn "document" (pyLower use_case) || pyIn "doc" (pyLower use_case)) = true) ∧
    (("GOOGLE_CALENDAR_CREATE_EVENT" ∈ fallbackSearchTools use_case ∧ "OUTLOOK_CALENDAR_CREATE_EVENT" ∈ fallbackSearchTools use_case) ↔
      (pyIn "calendar" (pyLower use_case) || pyIn "meeting" (pyLower use_case)) = true) ∧
    (("LINKEDIN_POST" ∈ fallbackSearchTools use_case ∧ "TWITTER_POST" ∈ fallbackSearchTools use_case) ↔
      (pyIn "social" (pyLower use_case) || pyIn "linkedin" (pyLower use_case) || pyIn "twitter" (pyLower use_case)) = true) ∧
    ((pyIn "email" (pyLower use_case) = false ∧
      (pyIn "slack" (pyLower use_case) || pyIn "message" (pyLower use_case)) = false ∧
      (pyIn "document" (pyLower use_case) || pyIn "doc" (pyLower use_case)) = false ∧
      (pyIn "calendar" (pyLower use_case) || pyIn "meeting" (pyLower use_case)) = false ∧
      (pyIn "social" (pyLower use_case) || pyIn "linkedin" (pyLower use_case) || pyIn "twitter" (pyLower use_case)) = false) →
      fallbackSearchTools use_case = ["GMAIL_SEND_EMAIL", "SLACK_SEND_MESSAGE", "GOOGLE_DOCS_CREATE"]) ∧
    fallbackSearchTools use_case ≠ [] := by
  refine ⟨rfl, ⟨_, rfl, rfl⟩, ?_⟩
  have e : fallbackSearchTools use_case =
      searchCore (pyIn "email" (pyLower use_case))
        (pyIn "slack" (pyLower use_case) || pyIn "message" (pyLower use_case))
        (pyIn "document" (pyLower use_case) || pyIn "doc" (pyLower use_case))
        (pyIn "calendar" (pyLower use_case) || pyIn "meeting" (pyLower use_case))
        (pyIn "social" (pyLower use_case) || pyIn "linkedin" (pyLower use_case) || pyIn "twitter" (pyLower use_case)) := by
    unfold fallbackSearchTools searchCore
    rfl
  rw [e]
  exact searchCore_spec (pyIn "email" (pyLower use_case))
    (pyIn "slack" (pyLower use_case) || pyIn "message" (pyLower use_case))
    (pyIn "document" (pyLower use_case) || pyIn "doc" (pyLower use_case))
    (pyIn "calendar" (pyLower use_case) || pyIn "meeting" (pyLower use_case))
    (pyIn "social" (pyLower use_case) || pyIn "linkedin" (pyLower use_case) || pyIn "twitter" (pyLower use_case))

/-- Witness for C1: on the keyword-free use case "hello" the fallback
returns exactly the default list (so it is nonempty), and on a use case
containing "linkedin" the social tools are included. -/
theorem search_tools_fallback_keyword_witness :
    fallbackSearchTools "hello" = ["GMAIL_SEND_EMAIL", "SLACK_SEND_MESSAGE", "GOOGLE_DOCS_CREATE"] ∧
    "LINKEDIN_POST" ∈ fallbackSearchTools "Post to LinkedIn" := by
  constructor
  · exact (search_tools_fallback_keyword_spec Unit "hello" 0).2.2.2.2.2.2.2.1 (by decide)
  · exact ((search_tools_fallback_keyword_spec Unit "Post to LinkedIn" 0).2.2.2.2.2.2.1.mpr (by decide)).1

/-- C2: on any exception other than the `NameError` the fallback consumes,
every POST handler of the proxy answers with HTTP 500 whose detail is the
exception's string; and every response a handler produces is either a 200
success body or that 500, so no other error status occurs. -/
theorem proxy_handlers_http500_spec (α : Type) (msg use_case difficulty session_id : String)
    (pyHash : Nat) (tools : List ToolCall) (toolkits : List String) :
    search_tools (α := α) (.exn msg) use_case pyHash = ⟨500, .errorDetail msg⟩ ∧
    execute_workflow (α := α) (.exn msg) tools session_id = ⟨500, .errorDetail msg⟩ ∧
    manage_connections (α := α) (.exn msg) toolkits = ⟨500, .errorDetail msg⟩ ∧
    create_plan (α := α) (.exn msg) use_case difficulty session_id = ⟨500, .errorDetail msg⟩ ∧
    (∀ o : McpOutcome α, (search_tools o use_case pyHash).status = 200 ∨
      ∃ d, o = .exn d ∧ search_tools o use_case pyHash = ⟨500, .errorDetail d⟩) ∧
    (∀ o : McpOutcome α, (execute_workflow o tools session_id).status = 200 ∨
      ∃ d, o = .exn d ∧ execute_workflow o tools session_id = ⟨500, .errorDetail d⟩) ∧
    (∀ o : McpOutcome α, (manage_connections o toolkits).status = 200 ∨
      ∃ d, o = .exn d ∧ manage_connections o toolkits = ⟨500, .errorDetail d⟩) ∧
    (∀ o : McpOutcome α, (create_plan o use_case difficulty session_id).status = 200 ∨
      ∃ d, o = .exn d ∧ create_plan o use_case difficulty session_id = ⟨500, .errorDetail d⟩) := by
  refine ⟨rfl, rfl, rfl, rfl, ?_, ?_, ?_, ?_⟩ <;>
    rintro (r | _ | d)
  · exact Or.inl rfl
  · exact Or.inl rfl
  · exact Or.inr ⟨d, rfl, rfl⟩
  · exact Or.inl rfl
  · exact Or.inl rfl
  · exact Or.inr ⟨d, rfl, rfl⟩
  · exact Or.inl rfl
  · exact Or.inl rfl
  · exact Or.inr ⟨d, rfl, rfl⟩
  · exact Or.inl rfl
  · exact Or.inl rfl
  · exact Or.inr ⟨d, rfl, rfl⟩

/-- C3: the proxy registers handlers for `/search-tools`,
`/execute-workflow`, `/manage-connections` and `/create-plan` as POST
routes and `/health` as a GET route, each path with that method only, and
the `/health` handler returns `{"status": "healthy", "message": "RUBE MCP
Proxy is running"}`. -/
theorem proxy_routes_spec :
    (⟨.post, "/search-tools"⟩ : Route) ∈ appRoutes ∧
    (⟨.post, "/execute-workflow"⟩ : Route) ∈ appRoutes ∧
    (⟨.post, "/manage-connections"⟩ : Route) ∈ appRoutes ∧
    (⟨.post, "/create-plan"⟩ : Route) ∈ appRoutes ∧
    (⟨.get, "/health"⟩ : Route) ∈ appRoutes ∧
    (∀ r ∈ appRoutes, r.path = "/search-tools" ∨ r.path = "/execute-workflow" ∨
      r.path = "/manage-connections" ∨ r.path = "/create-plan" → r.method = .post) ∧
    (∀ r ∈ appRoutes, r.path = "/health" → r.method = .get) ∧
    health_check = [("status", "healthy"), ("message", "RUBE MCP Proxy is running")] := by
  decide

/-- Witness for C3: the registered `/health` route indeed carries the GET
method. -/
theorem proxy_routes_witness : (⟨.get, "/health"⟩ : Route).method = .get :=
  proxy_routes_spec.2.2.2.2.2.2.1 ⟨.get, "/health"⟩ (by decide) rfl

/-- C8: a `/execute-workflow` request handled by the fallback branch always
gets a 200 success response whose data has `success = True` and one result
entry per requested tool, each with status "simulated" and the tool's
`tool_slug` (or "unknown" when absent); the results list is empty exactly
when the request's tools list is. -/
theorem execute_workflow_fallback_spec (α : Type) (tools : List ToolCall) (session_id : String) :
    ∃ d : ExecFallbackData,
      execute_workflow (α := α) .nameError tools session_id = ⟨200, .payload true (.inr d)⟩ ∧
      d.success = true ∧
      d.results.length = tools.length ∧
      d.results.all (fun r => r.status == "simulated") = true ∧
      (∀ i : Nat, (d.results[i]?).map ExecToolResult.tool =
        (tools[i]?).map (fun t => t.tool_slug.getD "unknown")) ∧
      d.results.isEmpty = tools.isEmpty := by
  refine ⟨_, rfl, rfl, ?_, ?_, ?_, ?_⟩
  · simp [fallbackExecResults]
  · simp [fallbackExecResults, List.all_eq_true]
  · intro i
    simp only [fallbackExecResults, List.getElem?_map]
    cases tools[i]? <;> rfl
  · show (List.map _ tools).isEmpty = tools.isEmpty
    cases tools <;> rfl

/-- Counterexample to C6 as stated: both responses have status 200 and the
search body contains `data.tools` and `data.session_id`, yet the demo does
not return `True` — the execute body lacks `data.message`, so the print on
line 53 raises an uncaught `KeyError`. -/
theorem demo_email_missing_message_cex :
    demo_email_automation ⟨200, some ⟨some ["GMAIL_SEND_EMAIL"], some "session-1"⟩⟩
      ⟨200, some ⟨none⟩⟩ = .error "KeyError: 'message'" := rfl

/-- C6 (amended): whenever both proxy responses have status 200, the search
body contains `data.tools` and `data.session_id`, and the execute body
contains `data.message`, the demo prints its success narration — a function
of those three fields only, the same for simulated and real backends — and
returns `True`. -/
theorem demo_email_success_spec (tools : List String) (session_id msg : String) :
    demo_email_automation ⟨200, some ⟨some tools, some session_id⟩⟩ ⟨200, some ⟨some msg⟩⟩ =
      .ok (demoEmailSuccessLines tools session_id msg, true) := rfl

/-- All four proxy-client methods share one request-handling body; the
behaviour of that body: at most one request is issued, a non-200 response
yields the `HTTP <status>` failure dict after exactly one request, and a
raised exception yields the stringified-exception failure dict after at
most one request, the client state unchanged throughout. -/
lemma clientMethod_spec (δ : Type) (c : ProxyClient) (t : Transport (Option δ)) :
    (c.search_tools t).2.1 ≤ 1 ∧
    (c.initialized = true → ∀ (s : Nat) (b : Option δ), t = .response s b → ¬ s = 200 →
      c.search_tools t = (c, 1, .failure ("HTTP " ++ toString s))) ∧
    (c.initialized = true → ∀ msg : String, t = .raises msg →
      c.search_tools t = (c, 1, .failure msg)) := by
  refine ⟨?_, ?_, ?_⟩
  · cases hi : c.initialized <;> cases t <;>
      simp [ProxyClient.search_tools, hi]
    split <;> simp
  · intro hi s b ht hs
    subst ht
    simp [ProxyClient.search_tools, hi, hs]
  · intro hi msg ht
    subst ht
    simp [ProxyClient.search_tools, hi]

/-- C7: no retry logic in the proxy client — each of the four methods
issues at most one HTTP request; on a non-200 response it returns
`{"success": False, "error": "HTTP <status>"}` and on a raised exception it
returns `{"success": False, "error": str(e)}`, in both cases after the one
request and without a second one. -/
theorem proxy_client_single_request_spec (δ : Type) (c : ProxyClient) (t : Transport (Option δ)) :
    (c.search_tools t).2.1 ≤ 1 ∧ (c.execute_workflow t).2.1 ≤ 1 ∧
    (c.manage_connections t).2.1 ≤ 1 ∧ (c.create_plan t).2.1 ≤ 1 ∧
    (c.initialized = true → ∀ (s : Nat) (b : Option δ), t = .response s b → ¬ s = 200 →
      c.search_tools t = (c, 1, .failure ("HTTP " ++ toString s)) ∧
      c.execute_workflow t = (c, 1, .failure ("HTTP " ++ toString s)) ∧
      c.manage_connections t = (c, 1, .failure ("HTTP " ++ toString s)) ∧
      c.create_plan t = (c, 1, .failure ("HTTP " ++ toString s))) ∧
    (c.initialized = true → ∀ msg : String, t = .raises msg →
      c.search_tools t = (c, 1, .failure msg) ∧
      c.execute_workflow t = (c, 1, .failure msg) ∧
      c.manage_connections t = (c, 1, .failure msg) ∧
      c.create_plan t = (c, 1, .failure msg)) := by
  obtain ⟨hcount, hstatus, hraise⟩ := clientMethod_spec δ c t
  exact ⟨hcount, hcount, hcount, hcount,
    fun hi s b ht hs =>
      ⟨hstatus hi s b ht hs, hstatus hi s b ht hs, hstatus hi s b ht hs, hstatus hi s b ht hs⟩,
    fun hi msg ht =>
      ⟨hraise hi msg ht, hraise hi msg ht, hraise hi msg ht, hraise hi msg ht⟩⟩

/-- Witness for C7: an initialized client receiving a 404 gets the
`HTTP 404` failure dict from the single request. -/
theorem proxy_client_single_request_witness :
    ({ proxy_url := "http://localhost:8001", api_key := some "k", initialized := true } : ProxyClient).search_tools
        (δ := Unit) (.response 404 none) =
      ({ proxy_url := "http://localhost:8001", api_key := some "k", initialized := true }, 1,
        .failure "HTTP 404") :=
  ((proxy_client_single_request_spec Unit _ _).2.2.2.2.1 rfl 404 none rfl (by decide)).1

/-- C9: while `initialized` is `False` every proxy-client method returns
the not-initialized failure dict after zero HTTP requests with the client
unchanged; and `initialized` becomes `True` only through a successful
initialization, which requires a truthy `RUBE_API_KEY` and a 200 from GET
`/health` — conditions which conversely suffice. -/
theorem proxy_client_init_guard_spec (δ : Type) (c : ProxyClient) (t : Transport (Option δ))
    (h : Transport Unit) :
    (c.initialized = false →
      c.search_tools t = (c, 0, .failure "Proxy client not initialized") ∧
      c.execute_workflow t = (c, 0, .failure "Proxy client not initialized") ∧
      c.manage_connections t = (c, 0, .failure "Proxy client not initialized") ∧
      c.create_plan t = (c, 0, .failure "Proxy client not initialized")) ∧
    (( c.initializeConn h).1.initialized = true →
      c.initialized = true ∨ (pyFalsy c.api_key = false ∧ h = .response 200 ())) ∧
    (pyFalsy c.api_key = false → h = .response 200 () →
      ( c.initializeConn h).1.initialized = true ∧ ( c.initializeConn h).2 = true) := by
  refine ⟨?_, ?_, ?_⟩
  · intro hi
    have hs : c.search_tools t = (c, 0, .failure "Proxy client not initialized") := by
      simp [ProxyClient.search_tools, hi]
    exact ⟨hs, hs, hs, hs⟩
  · by_cases hk : pyFalsy c.api_key = true
    · intro h2
      have e : c.initializeConn h = (c, false) := by
        simp [ProxyClient.initializeConn, hk]
      rw [e] at h2
      exact Or.inl h2
    · rw [Bool.not_eq_true] at hk
      cases h with
      | response s b =>
        rcases b
        by_cases hs : s = 200
        · subst hs
          intro _
          exact Or.inr ⟨hk, rfl⟩
        · intro h2
          have e : c.initializeConn (.response s ()) = (c, false) := by
            simp [ProxyClient.initializeConn, hk, hs]
          rw [e] at h2
          exact Or.inl h2
      | raises msg =>
        intro h2
        have e : c.initializeConn (.raises msg) = (c, false) := by
          simp [ProxyClient.initializeConn, hk]
        rw [e] at h2
        exact Or.inl h2
  · intro hk h200
    subst h200
    simp [ProxyClient.initializeConn, hk]

/-- Witness for C9: a fresh client refuses a method call with zero
requests, and initialization with an API key and a healthy proxy flips
`initialized` on. -/
theorem proxy_client_init_guard_witness :
    (ProxyClient.new "http://localhost:8001" (some "rube-key")).search_tools (δ := Unit)
        (.response 200 none) =
      (ProxyClient.new "http://localhost:8001" (some "rube-key"), 0,
        .failure "Proxy client not initialized") ∧
    (( (ProxyClient.new "http://localhost:8001" (some "rube-key")).initializeConn
        (.response 200 ())).1.initialized = true) := by
  have h := proxy_client_init_guard_spec Unit (ProxyClient.new "http://localhost:8001" (some "rube-key"))
    (.response 200 none) (.response 200 ())
  exact ⟨(h.1 rfl).1, (h.2.2 (by decide) rfl).1⟩

/-- The test of line 53 holds exactly when the key is absent or its value
starts with the placeholder text. -/
lemma missingOrPlaceholder_iff (env : List (String × String)) (v : String) :
    missingOrPlaceholder env v = true ↔
      List.lookup v env = none ∨
        ∃ x, List.lookup v env = some x ∧ pyStartsWith x "your_" = true := by
  unfold missingOrPlaceholder
  cases hl : List.lookup v env <;> simp [hl]

/-- `missing_vars` is empty exactly when every required key passes the
test. -/
lemma missing_vars_eq_nil_iff (env : List (String × String)) :
    missing_vars env = [] ↔ ∀ v ∈ required_vars, missingOrPlaceholder env v = false := by
  unfold missing_vars
  rw [List.filter_eq_nil_iff]
  simp

set_option maxRecDepth 4096 in
/-- Each of the three spliced values occurs in the frontend file text. -/
lemma pyIn_frontendContent (url key secret : String) :
    pyIn url (frontendContent url key secret) = true ∧
    pyIn key (frontendContent url key secret) = true ∧
    pyIn secret (frontendContent url key secret) = true := by
  refine ⟨?_, ?_, ?_⟩ <;>
    rw [pyIn, decide_eq_true_eq]
  · exact ⟨("# LiveKit Configuration\n" ++
      "# These values are synced from the agent configuration\n" ++
      "LIVEKIT_API_KEY=" ++ key ++ "\n" ++
      "LIVEKIT_API_SECRET=" ++ secret ++ "\n" ++
      "LIVEKIT_URL=").data,
      ("\n" ++ "\n" ++ "# Internal environment variables (leave as is)\n" ++
       "NEXT_PUBLIC_APP_CONFIG_ENDPOINT=\n" ++ "SANDBOX_ID=").data,
      by simp [frontendContent, String.data_append, List.append_assoc]⟩
  · exact ⟨("# LiveKit Configuration\n" ++
      "# These values are synced from the agent configuration\n" ++
      "LIVEKIT_API_KEY=").data,
      ("\n" ++ "LIVEKIT_API_SECRET=" ++ secret ++ "\n" ++
       "LIVEKIT_URL=" ++ url ++ "\n" ++ "\n" ++
       "# Internal environment variables (leave as is)\n" ++
       "NEXT_PUBLIC_APP_CONFIG_ENDPOINT=\n" ++ "SANDBOX_ID=").data,
      by simp [frontendContent, String.data_append, List.append_assoc]⟩
  · exact ⟨("# LiveKit Configuration\n" ++
      "# These values are synced from the agent configuration\n" ++
      "LIVEKIT_API_KEY=" ++ key ++ "\n" ++
      "LIVEKIT_API_SECRET=").data,
      ("\n" ++ "LIVEKIT_URL=" ++ url ++ "\n" ++ "\n" ++
       "# Internal environment variables (leave as is)\n" ++
       "NEXT_PUBLIC_APP_CONFIG_ENDPOINT=\n" ++ "SANDBOX_ID=").data,
      by simp [frontendContent, String.data_append, List.append_assoc]⟩

/-- C4: `sync_env.main` enforces "required keys present, not placeholder"
atomically — it exits with status 1 and writes nothing when the agent
`.env.local` is missing, or exactly when one of the three required keys is
absent or its value starts with `your_`; otherwise it writes the frontend
`.env.local`, whose text is the template spliced with the three values and
contains each of them. -/
theorem sync_env_guard_spec (content : String) :
    syncMain none = .exit1 ∧
    (syncMain (some content) = .exit1 ↔
      ∃ v ∈ required_vars, List.lookup v (load_env_file content) = none ∨
        ∃ x, List.lookup v (load_env_file content) = some x ∧ pyStartsWith x "your_" = true) ∧
    ((∀ v ∈ required_vars, missingOrPlaceholder (load_env_file content) v = false) →
      ∃ url key secret,
        List.lookup "LIVEKIT_URL" (load_env_file content) = some url ∧
        List.lookup "LIVEKIT_API_KEY" (load_env_file content) = some key ∧
        List.lookup "LIVEKIT_API_SECRET" (load_env_file content) = some secret ∧
        syncMain (some content) = .wrote (frontendContent url key secret) ∧
        pyIn url (frontendContent url key secret) = true ∧
        pyIn key (frontendContent url key secret) = true ∧
        pyIn secret (frontendContent url key secret) = true) := by
  refine ⟨rfl, ?_, ?_⟩
  · constructor
    · intro h
      by_cases hm : missing_vars (load_env_file content) = []
      · exfalso
        have hw : syncMain (some content) = .wrote (frontendContent
            ((List.lookup "LIVEKIT_URL" (load_env_file content)).getD "")
            ((List.lookup "LIVEKIT_API_KEY" (load_env_file content)).getD "")
            ((List.lookup "LIVEKIT_API_SECRET" (load_env_file content)).getD "")) := by
          simp [syncMain, hm]
        rw [hw] at h
        exact SyncResult.noConfusion h
      · rw [missing_vars_eq_nil_iff] at hm
        push_neg at hm
        obtain ⟨v, hv, hbad⟩ := hm
        have hbad' : missingOrPlaceholder (load_env_file content) v = true := by
          simpa using hbad
        exact ⟨v, hv, (missingOrPlaceholder_iff _ _).mp hbad'⟩
    · rintro ⟨v, hv, hbad⟩
      have hv' : missingOrPlaceholder (load_env_file content) v = true :=
        (missingOrPlaceholder_iff _ _).mpr hbad
      have hm : ¬ missing_vars (load_env_file content) = [] := by
        intro hnil
        have := (missing_vars_eq_nil_iff _).mp hnil v hv
        rw [hv'] at this
        exact Bool.noConfusion this
      simp [syncMain, hm]
  · intro hall
    have hm : missing_vars (load_env_file content) = [] :=
      (missing_vars_eq_nil_iff _).mpr hall
    have hsome : ∀ v ∈ required_vars, ∃ x, List.lookup v (load_env_file content) = some x := by
      intro v hv
      cases hl : List.lookup v (load_env_file content) with
      | none =>
        have := hall v hv
        rw [missingOrPlaceholder, hl] at this
        exact Bool.noConfusion this
      | some x => exact ⟨x, rfl⟩
    obtain ⟨url, hurl⟩ := hsome "LIVEKIT_URL" (by simp [required_vars])
    obtain ⟨key, hkey⟩ := hsome "LIVEKIT_API_KEY" (by simp [required_vars])
    obtain ⟨secret, hsec⟩ := hsome "LIVEKIT_API_SECRET" (by simp [required_vars])
    refine ⟨url, key, secret, hurl, hkey, hsec, ?_,
      (pyIn_frontendContent url key secret).1,
      (pyIn_frontendContent url key secret).2.1,
      (pyIn_frontendContent url key secret).2.2⟩
    simp [syncMain, hm, hurl, hkey, hsec]

/-- Witness for C4: a placeholder-only agent file makes the script exit
with status 1; a complete agent file makes it write the synced frontend
file. -/
theorem sync_env_guard_witness :
    syncMain (some "LIVEKIT_API_KEY=your_api_key") = .exit1 ∧
    syncMain (some "LIVEKIT_URL=wss://demo.livekit.cloud\nLIVEKIT_API_KEY=APIkey123\nLIVEKIT_API_SECRET=secret456") =
      .wrote (frontendContent "wss://demo.livekit.cloud" "APIkey123" "secret456") := by
  constructor
  · exact (sync_env_guard_spec "LIVEKIT_API_KEY=your_api_key").2.1.mpr
      ⟨"LIVEKIT_URL", by decide, Or.inl (by decide)⟩
  · obtain ⟨u, k, s, hu, hk, hs, hw, -, -, -⟩ :=
      (sync_env_guard_spec "LIVEKIT_URL=wss://demo.livekit.cloud\nLIVEKIT_API_KEY=APIkey123\nLIVEKIT_API_SECRET=secret456").2.2
        (by decide)
    have eu : List.lookup "LIVEKIT_URL"
        (load_env_file "LIVEKIT_URL=wss://demo.livekit.cloud\nLIVEKIT_API_KEY=APIkey123\nLIVEKIT_API_SECRET=secret456") =
        some "wss://demo.livekit.cloud" := by decide
    have ek : List.lookup "LIVEKIT_API_KEY"
        (load_env_file "LIVEKIT_URL=wss://demo.livekit.cloud\nLIVEKIT_API_KEY=APIkey123\nLIVEKIT_API_SECRET=secret456") =
        some "APIkey123" := by decide
    have es : List.lookup "LIVEKIT_API_SECRET"
        (load_env_file "LIVEKIT_URL=wss://demo.livekit.cloud\nLIVEKIT_API_KEY=APIkey123\nLIVEKIT_API_SECRET=secret456") =
        some "secret456" := by decide
    obtain rfl : u = "wss://demo.livekit.cloud" := Option.some.inj (hu.symm.trans eu)
    obtain rfl : k = "APIkey123" := Option.some.inj (hk.symm.trans ek)
    obtain rfl : s = "secret456" := Option.some.inj (hs.symm.trans es)
    exact hw

/-- C10: noninterference of the other agent secrets — the result of
`sync_env.main` depends only on what the agent environment assigns to the
three LIVEKIT keys, so two agent files agreeing on those three produce
identical outcomes, and in particular byte-identical frontend texts. -/
theorem sync_env_noninterference_spec (c1 c2 : String)
    (hagree : ∀ v ∈ required_vars,
      List.lookup v (load_env_file c1) = List.lookup v (load_env_file c2)) :
    syncMain (some c1) = syncMain (some c2) := by
  have hm : missing_vars (load_env_file c1) = missing_vars (load_env_file c2) := by
    unfold missing_vars
    refine List.filter_congr ?_
    intro v hv
    unfold missingOrPlaceholder
    rw [hagree v hv]
  have h1 := hagree "LIVEKIT_URL" (by simp [required_vars])
  have h2 := hagree "LIVEKIT_API_KEY" (by simp [required_vars])
  have h3 := hagree "LIVEKIT_API_SECRET" (by simp [required_vars])
  simp only [syncMain, hm, h1, h2, h3]

/-- Witness for C10: two agent files differing in `OPENAI_API_KEY` and an
extra `DEEPGRAM_API_KEY` but agreeing on the three LIVEKIT keys give the
same synchronisation outcome. -/
theorem sync_env_noninterference_witness :
    syncMain (some "LIVEKIT_URL=wss://a\nLIVEKIT_API_KEY=k\nLIVEKIT_API_SECRET=s\nOPENAI_API_KEY=secret-one") =
      syncMain (some "LIVEKIT_URL=wss://a\nLIVEKIT_API_KEY=k\nLIVEKIT_API_SECRET=s\nOPENAI_API_KEY=other\nDEEPGRAM_API_KEY=dg") :=
  sync_env_noninterference_spec _ _ (by decide)
/-- Unfolding `pySplitlines` at a character that is no line boundary. -/
lemma pySplitlines_cons_nb (c : Char) (cs : List Char) (h : pyLineBoundary c = false) :
    pySplitlines (c :: cs) =
      match pySplitlines cs with
      | [] => [[c]]
      | l :: ls => (c :: l) :: ls := by
  rw [pySplitlines.eq_def]
  simp [h]

/-- Unfolding `pySplitlines` at a leading newline. -/
lemma pySplitlines_cons_nl (cs : List Char) :
    pySplitlines ('\n' :: cs) = [] :: pySplitlines cs := by
  rw [pySplitlines.eq_def]
  simp [pyLineBoundary]

/-- A nonempty boundary-free text is a single line. -/
lemma pySplitlines_single (l : List Char) (hne : l ≠ [])
    (h : ∀ c ∈ l, pyLineBoundary c = false) : pySplitlines l = [l] := by
  induction l with
  | nil => exact absurd rfl hne
  | cons c cs ih =>
    rw [pySplitlines_cons_nb c cs (h c (List.mem_cons_self c cs))]
    cases cs with
    | nil => rfl
    | cons d ds =>
      rw [ih (by simp) (fun x hx => h x (List.mem_cons_of_mem c hx))]

/-- Splitting peels off a boundary-free line before a newline. -/
lemma pySplitlines_append (l rest : List Char) (h : ∀ c ∈ l, pyLineBoundary c = false) :
    pySplitlines (l ++ '\n' :: rest) = l :: pySplitlines rest := by
  induction l with
  | nil => simpa using pySplitlines_cons_nl rest
  | cons c cs ih =>
    rw [List.cons_append, pySplitlines_cons_nb c _ (h c (List.mem_cons_self c cs)),
      ih (fun x hx => h x (List.mem_cons_of_mem c hx))]

/-- Splitting inverts joining for nonempty lists of nonempty
boundary-free lines. -/
lemma pySplitlines_joinNl (ls : List (List Char)) (hne : ls ≠ [])
    (h : ∀ l ∈ ls, l ≠ [] ∧ ∀ c ∈ l, pyLineBoundary c = false) :
    pySplitlines (joinNl ls) = ls := by
  induction ls with
  | nil => exact absurd rfl hne
  | cons l ls ih =>
    cases ls with
    | nil =>
      exact pySplitlines_single l (h l (List.mem_cons_self l [])).1
        (h l (List.mem_cons_self l [])).2
    | cons l2 ls2 =>
      rw [show joinNl (l :: l2 :: ls2) = l ++ '\n' :: joinNl (l2 :: ls2) from rfl]
      rw [pySplitlines_append l _ (h l (List.mem_cons_self _ _)).2]
      rw [ih (by simp) (fun x hx => h x (List.mem_cons_of_mem l hx))]

/-- `dropWhile` is the identity when the head fails the test. -/
lemma dropWhile_of_headSat (p : Char → Bool) (l : List Char)
    (h : headSat (fun c => !p c) l = true) : l.dropWhile p = l := by
  cases l with
  | nil => rfl
  | cons c cs =>
    simp [headSat] at h
    simp [List.dropWhile_cons, h]

/-- `strip` is the identity on text with no whitespace at either end. -/
lemma pyStrip_eq_self (l : List Char) (h1 : headSat (fun c => !pyIsSpace c) l = true)
    (h2 : headSat (fun c => !pyIsSpace c) l.reverse = true) : pyStrip l = l := by
  unfold pyStrip
  rw [dropWhile_of_headSat pyIsSpace l h1, dropWhile_of_headSat pyIsSpace l.reverse h2,
    List.reverse_reverse]

/-- The take part of `line.split('=', 1)` recovers the key. -/
lemma takeWhile_key (k v : List Char) (h : ∀ c ∈ k, (c != '=') = true) :
    (k ++ '=' :: v).takeWhile (fun d => d != '=') = k := by
  induction k with
  | nil => simp [List.takeWhile_cons]
  | cons c cs ih =>
    have hc := h c (List.mem_cons_self c cs)
    have ih' := ih (fun d m => h d (List.mem_cons_of_mem c m))
    simp [List.takeWhile_cons, hc, ih']

/-- The drop part of `line.split('=', 1)` recovers the value. -/
lemma dropWhile_key (k v : List Char) (h : ∀ c ∈ k, (c != '=') = true) :
    (k ++ '=' :: v).dropWhile (fun d => d != '=') = '=' :: v := by
  induction k with
  | nil => simp [List.dropWhile_cons]
  | cons c cs ih =>
    have hc := h c (List.mem_cons_self c cs)
    have ih' := ih (fun d m => h d (List.mem_cons_of_mem c m))
    simp [List.dropWhile_cons, hc, ih']

/-- Parsing a written `key=value` line recovers the pair. -/
lemma parse_line (k v : String) (hk : goodEnvKey k = true) :
    parseEnvLine (k.data ++ '=' :: v.data) = some (k, v) := by
  obtain ⟨kd⟩ := k
  obtain ⟨vd⟩ := v
  simp only [goodEnvKey, Bool.and_eq_true, List.all_eq_true] at hk
  obtain ⟨⟨⟨hne, hall⟩, hhead⟩, -⟩ := hk
  cases kd with
  | nil => simp at hne
  | cons c cs =>
    simp only [headSat, Bool.and_eq_true] at hhead
    have hc : ¬ c = '#' := by simpa using hhead.1
    have hany : ((c :: cs) ++ '=' :: vd).any (fun d => d == '=') = true := by
      rw [List.any_eq_true]
      exact ⟨'=', by simp, by simp⟩
    have hkeq : ∀ x ∈ c :: cs, (x != '=') = true := fun x m => (hall x m).1
    have ht := takeWhile_key (c :: cs) vd hkeq
    have hd := dropWhile_key (c :: cs) vd hkeq
    rw [List.cons_append] at ht hd hany
    simp [parseEnvLine, hc, hany, ht, hd]

/-- Stripping a written `key=value` line changes nothing. -/
lemma strip_line (k v : String) (hk : goodEnvKey k = true) (hv : goodEnvVal v = true) :
    pyStrip (k.data ++ '=' :: v.data) = k.data ++ '=' :: v.data := by
  simp only [goodEnvKey, Bool.and_eq_true] at hk
  simp only [goodEnvVal, Bool.and_eq_true] at hv
  obtain ⟨⟨⟨hne, -⟩, hhead⟩, -⟩ := hk
  obtain ⟨⟨-, -⟩, hvlast⟩ := hv
  refine pyStrip_eq_self _ ?_ ?_
  · cases hd : k.data with
    | nil => rw [hd] at hne; simp at hne
    | cons c cs =>
      rw [hd] at hhead
      simp only [headSat, Bool.and_eq_true] at hhead
      simp [headSat, hhead.2]
  · revert hvlast
    rw [List.reverse_append, List.reverse_cons]
    generalize v.data.reverse = r
    intro hvlast
    cases r with
    | nil => simp [headSat]; decide
    | cons c cs => simpa [headSat] using hvlast

/-- Dict insertion of a fresh key appends. -/
lemma dinsert_append (env : List (String × String)) (k v : String)
    (h : k ∉ env.map Prod.fst) : dinsert env k v = env ++ [(k, v)] := by
  rw [dinsert, if_neg]
  intro hc
  rw [List.any_eq_true] at hc
  obtain ⟨p, hp, he⟩ := hc
  rw [beq_iff_eq] at he
  exact h (he ▸ List.mem_map_of_mem Prod.fst hp)

/-- The `load_env_file` fold over written lines rebuilds the map. -/
lemma load_fold (ps : List (String × String)) (acc : List (String × String))
    (hgood : ∀ p ∈ ps, goodEnvKey p.1 = true ∧ goodEnvVal p.2 = true)
    (hfresh : ∀ p ∈ ps, p.1 ∉ acc.map Prod.fst)
    (hnd : (ps.map Prod.fst).Nodup) :
    ps.foldl
      (fun env p =>
        match parseEnvLine (pyStrip (p.1.data ++ '=' :: p.2.data)) with
        | some (k, v) => dinsert env k v
        | none => env) acc = acc ++ ps := by
  induction ps generalizing acc with
  | nil => simp
  | cons p ps ih =>
    obtain ⟨pk, pv⟩ := p
    obtain ⟨hgk, hgv⟩ := hgood (pk, pv) (List.mem_cons_self _ ps)
    rw [List.foldl_cons]
    rw [show (match parseEnvLine (pyStrip ((pk, pv).1.data ++ '=' :: (pk, pv).2.data)) with
        | some (k, v) => dinsert acc k v
        | none => acc) = dinsert acc pk pv from by
      rw [strip_line pk pv hgk hgv, parse_line pk pv hgk]]
    rw [dinsert_append acc pk pv (hfresh (pk, pv) (List.mem_cons_self _ ps))]
    rw [ih (acc ++ [(pk, pv)])
      (fun q hq => hgood q (List.mem_cons_of_mem (pk, pv) hq))
      (fun q hq => by
        rw [List.map_append]
        simp only [List.mem_append]
        rintro (h1 | h2)
        · exact hfresh q (List.mem_cons_of_mem (pk, pv) hq) h1
        · simp only [List.map_cons, List.map_nil, List.mem_singleton] at h2
          rw [List.map_cons, List.nodup_cons] at hnd
          apply hnd.1
          show pk ∈ List.map Prod.fst ps
          rw [← h2]
          exact List.mem_map_of_mem Prod.fst hq)
      (by rw [List.map_cons, List.nodup_cons] at hnd; exact hnd.2)]
    simp

/-- C5 (amended): round trip of the flat environment-file format — for
every finite map (association list with distinct keys) whose keys are
non-empty, contain no `'='` and no `str.splitlines` line-boundary
character, do not start with `'#'`, and whose keys and values have no
leading or trailing `str.strip` whitespace and no line-boundary character,
writing the map with `save_env_file` (no template) and reading the file
back with `load_env_file` returns the original map. -/
theorem env_file_roundtrip_spec (env : List (String × String))
    (hnodup : (env.map Prod.fst).Nodup)
    (hgood : ∀ p ∈ env, goodEnvKey p.1 = true ∧ goodEnvVal p.2 = true) :
    load_env_file (save_env_content env) = env := by
  cases henv : env with
  | nil => rfl
  | cons p0 rest =>
    rw [← henv]
    have hlines : ∀ l ∈ env.map (fun p => p.1.data ++ '=' :: p.2.data),
        l ≠ [] ∧ ∀ c ∈ l, pyLineBoundary c = false := by
      intro l hl
      rw [List.mem_map] at hl
      obtain ⟨p, hp, rfl⟩ := hl
      obtain ⟨hgk, hgv⟩ := hgood p hp
      simp only [goodEnvKey, Bool.and_eq_true, List.all_eq_true] at hgk
      simp only [goodEnvVal, Bool.and_eq_true, List.all_eq_true] at hgv
      refine ⟨by simp, ?_⟩
      intro c hm
      rw [List.mem_append] at hm
      rcases hm with h1 | h2
      · have := (hgk.1.1.2 c h1).2
        simpa using this
      · rw [List.mem_cons] at h2
        rcases h2 with h3 | h4
        · rw [h3]; decide
        · have := hgv.1.1 c h4
          simpa using this
    have hmapne : env.map (fun p => p.1.data ++ '=' :: p.2.data) ≠ [] := by
      rw [henv]; simp
    show (pySplitlines (save_env_content env).data).foldl _ [] = env
    rw [show (save_env_content env).data = joinNl (env.map (fun p => p.1.data ++ '=' :: p.2.data)) from rfl]
    rw [pySplitlines_joinNl _ hmapne hlines]
    rw [List.foldl_map]
    exact load_fold env [] hgood (by simp) hnodup

/-- Counterexample to C5 as stated: the map `{"AB": "x\x0by"}` has a
well-formed key and a value that contains no newline and no leading or
trailing whitespace, yet saving and loading it returns `{"AB": "x"}` — the
vertical tab is not a newline or whitespace at either end, but
`str.splitlines` breaks the written line at it and the `y` remainder is
dropped as a line without `'='`. -/
theorem env_file_roundtrip_cex :
    goodEnvKey "AB" = true ∧
    '\n' ∉ "x\u000By".data ∧
    headSat (fun c => !pyIsSpace c) "x\u000By".data = true ∧
    headSat (fun c => !pyIsSpace c) "x\u000By".data.reverse = true ∧
    load_env_file (save_env_content [("AB", "x\u000By")]) = [("AB", "x")] ∧
    load_env_file (save_env_content [("AB", "x\u000By")]) ≠ [("AB", "x\u000By")] := by
  decide

/-- Witness for C5: a concrete two-entry map, one value containing `'='`,
survives the save/load round trip unchanged. -/
theorem env_file_roundtrip_witness :
    load_env_file (save_env_content
        [("LIVEKIT_URL", "wss://demo.livekit.cloud"), ("OPENAI_API_KEY", "sk-abc=123")]) =
      [("LIVEKIT_URL", "wss://demo.livekit.cloud"), ("OPENAI_API_KEY", "sk-abc=123")] :=
  env_file_roundtrip_spec _ (by decide) (by decide)

end LivekitVoiceAi
